import Mathlib

/-!
Verification development for the G3_Video_Agent job/shot orchestration engine.

The definitions below are a shallow embedding of the Python source:
  - `core/workflow_manager.py` (WorkflowManager.load, apply_agent_action,
    run_node, merge_videos),
  - `core/runner.py` (run_stylize, run_video_generate and their per-shot
    bodies),
  - `core/changes.py` (apply_global_style).

The filesystem is modelled as the list of paths that currently exist under
the job directory; external generator collaborators (the Veo video
synthesizer and the ffmpeg muxer), whose outcomes the engine only observes
as success/failure plus a produced file, are modelled as boolean oracles.
All stateful code is modelled by explicit state passing.
-/

namespace G3VideoAgent

/-- The four per-stage status strings used throughout `workflow.json`. -/
inductive Status where
  | NOT_STARTED
  | RUNNING
  | SUCCESS
  | FAILED
deriving DecidableEq, Repr

/-- The `assets` map of a shot (workflow_manager.py lines 63-68).
A `none` entry models JSON `null`. -/
structure Assets where
  first_frame : String
  source_video_segment : String
  stylized_frame : Option String
  video : Option String
deriving DecidableEq, Repr

/-- The `status` map of a shot, keyed by the two per-shot stage names. -/
structure ShotStatus where
  stylize : Status
  video_generate : Status
deriving DecidableEq, Repr

/-- The `errors` map of a shot (runner.py lines 162 and 188); a key that was
never written is `none`. -/
structure ShotErrors where
  stylize : Option String
  video_generate : Option String
deriving DecidableEq, Repr

/-- One entry of the workflow document's `shots` list
(workflow_manager.py lines 57-73). -/
structure Shot where
  shot_id : String
  description : String
  assets : Assets
  status : ShotStatus
  errors : ShotErrors
deriving DecidableEq, Repr

/-- The derived `merge_info` summary computed by `load`
(workflow_manager.py lines 294-306). -/
structure MergeInfo where
  can_merge : Bool
  failed_count : Nat
  pending_count : Nat
  message : String
deriving DecidableEq, Repr

/-- The workflow document.  `stylize_stage`, `video_gen_stage` and
`merge_stage` are the `global_stages` entries the embedded code touches;
`style_prompt` is `global.style_prompt`. -/
structure Workflow where
  style_prompt : String
  stylize_stage : Status
  video_gen_stage : Status
  merge_stage : Status
  shots : List Shot
  merge_info : Option MergeInfo
deriving DecidableEq, Repr

/-- The job directory's filesystem, as the list of files that exist
(paths relative to the job directory). -/
structure FS where
  files : List String
deriving DecidableEq, Repr

/-- Path test, modelling `Path.exists()`. -/
def FS.has (fs : FS) (p : String) : Bool :=
  decide (p ∈ fs.files)

/-- File creation, modelling a generator writing its artifact. -/
def FS.add (fs : FS) (p : String) : FS :=
  ⟨p :: fs.files⟩

/-- File deletion, modelling `os.remove` (guarded by existence in the
source, which makes unconditional removal equivalent). -/
def FS.removeFile (fs : FS) (p : String) : FS :=
  ⟨fs.files.filter (fun q => decide (q ≠ p))⟩

/-- Lowercasing a string character by character, modelling Python's
`str.lower()` (they agree on ASCII text). -/
def lowerStr (s : String) : String :=
  String.mk (s.data.map Char.toLower)

/-- Lexicographic comparison of character lists by code point, the order
Python uses to compare strings in `list.sort`. -/
def leChars : List Char → List Char → Bool
  | [], _ => true
  | _ :: _, [] => false
  | a :: as, b :: bs => if a < b then true else if b < a then false else leChars as bs

/-- String comparison by code points. -/
def strLe (a b : String) : Bool :=
  leChars a.data b.data

/-- The stylize-stage artifact path for a shot id
(`stylized_frames/<sid>.png`). -/
def stylizedPath (sid : String) : String :=
  "stylized_frames/" ++ sid ++ ".png"

/-- The video-stage artifact path for a shot id (`videos/<sid>.mp4`). -/
def videoPath (sid : String) : String :=
  "videos/" ++ sid ++ ".mp4"

/-- Per-shot reconciliation performed by `WorkflowManager.load`
(workflow_manager.py lines 267-288): promote `stylize` when the stylized
frame exists and the status is not SUCCESS; promote `video_generate` when
the video exists and the status is not SUCCESS; demote `video_generate`
to NOT_STARTED (clearing the asset) when the video is absent and the
status is SUCCESS.  The source has no demotion branch for `stylize`. -/
def reconcileShot (fs : FS) (s : Shot) : Shot :=
  let s1 :=
    if fs.has (stylizedPath s.shot_id) = true ∧ s.status.stylize ≠ Status.SUCCESS then
      { s with status.stylize := Status.SUCCESS,
               assets.stylized_frame := some (stylizedPath s.shot_id) }
    else s
  if fs.has (videoPath s1.shot_id) = true ∧ s1.status.video_generate ≠ Status.SUCCESS then
    { s1 with status.video_generate := Status.SUCCESS,
              assets.video := some (videoPath s1.shot_id) }
  else if fs.has (videoPath s1.shot_id) = false ∧ s1.status.video_generate = Status.SUCCESS then
    { s1 with status.video_generate := Status.NOT_STARTED,
              assets.video := none }
  else s1

/-- The merge-readiness summary of `load`
(workflow_manager.py lines 291-306). -/
def computeMergeInfo (shots : List Shot) : MergeInfo :=
  let failed := (shots.filter (fun s => decide (s.status.video_generate = Status.FAILED))).length
  let pending := (shots.filter (fun s =>
    decide (s.status.video_generate = Status.NOT_STARTED ∨ s.status.video_generate = Status.RUNNING))).length
  { can_merge := decide (failed = 0 ∧ pending = 0 ∧ 0 < shots.length)
    failed_count := failed
    pending_count := pending
    message :=
      if 0 < failed then "failed shots cannot be assembled"
      else if 0 < pending then "waiting for the shot list"
      else if 0 < shots.length then "all shots are ready"
      else "" }

/-- `WorkflowManager.load` (workflow_manager.py lines 259-309): reconcile
every shot against the filesystem and recompute `merge_info`.  The
conditional re-save of the corrected document is not modelled (the claims
under study do not mention it). -/
def load (fs : FS) (wf : Workflow) : Workflow :=
  let shots := wf.shots.map (reconcileShot fs)
  { wf with shots := shots, merge_info := some (computeMergeInfo shots) }

/-- The shots whose `video_generate` status is SUCCESS, as selected at the
top of `merge_videos` (workflow_manager.py line 447). -/
def successShots (wf : Workflow) : List Shot :=
  wf.shots.filter (fun s => decide (s.status.video_generate = Status.SUCCESS))

/-- Ascending insertion into a list sorted by `shot_id`. -/
def insertSorted (s : Shot) : List Shot → List Shot
  | [] => [s]
  | t :: rest =>
    if strLe s.shot_id t.shot_id = true then s :: t :: rest
    else t :: insertSorted s rest

/-- Sorting by `shot_id`, modelling `success_shots.sort(key=...)`
(workflow_manager.py line 449). -/
def sortByShotId (l : List Shot) : List Shot :=
  l.foldr insertSorted []

/-- The successful outcome of `merge_videos`: the updated document, the
returned output path, the ordered shots selected for merging, and the
artifact paths written to the concat list. -/
structure MergeOk where
  wf : Workflow
  output : String
  merged : List Shot
  concatPaths : List String
deriving DecidableEq, Repr

/-- `WorkflowManager.merge_videos` (workflow_manager.py lines 444-464).
`ffmpegOk` is the outcome of the external ffmpeg concat invocation.  The
source raises when there is no shot with `video_generate == SUCCESS`, or
when ffmpeg fails; otherwise it concatenates the SUCCESS shots sorted by
shot id (writing a concat line only for shots with a non-null video
asset), marks the global merge stage SUCCESS and returns
`final_output.mp4`. -/
def merge_videos (wf : Workflow) (ffmpegOk : Bool) : Except String MergeOk :=
  let succ := successShots wf
  if succ = [] then
    Except.error "no mergeable shot videos"
  else
    let sorted := sortByShotId succ
    if ffmpegOk = false then
      Except.error "merge failed"
    else
      Except.ok
        { wf := { wf with merge_stage := Status.SUCCESS }
          output := "final_output.mp4"
          merged := sorted
          concatPaths := sorted.filterMap (fun s => s.assets.video) }

/-- Boolean success test for an `Except` result. -/
def isOkB : Except String MergeOk → Bool
  | Except.ok _ => true
  | Except.error _ => false

/-- The cascading reset applied by every edit operation to an affected
shot: both stage statuses back to NOT_STARTED and both downstream assets
cleared (workflow_manager.py lines 330-333, 343-350, 358-365, 383-390). -/
def resetShot (s : Shot) : Shot :=
  { s with status := { stylize := Status.NOT_STARTED, video_generate := Status.NOT_STARTED },
           assets := { s.assets with stylized_frame := none, video := none } }

/-- Deletion of a shot's two downstream artifacts (its video and its
stylized frame), as performed inside every edit operation. -/
def clearShotArtifacts (fs : FS) (sid : String) : FS :=
  (fs.removeFile (videoPath sid)).removeFile (stylizedPath sid)

/-- Artifact deletion for a whole shot list (the per-shot loop of
`set_global_style`, workflow_manager.py lines 325-333). -/
def clearAllArtifacts : FS → List Shot → FS
  | fs, [] => fs
  | fs, s :: rest => clearAllArtifacts (clearShotArtifacts fs s.shot_id) rest

/-- Case-insensitive prefix test on character lists, modelling how
`re.IGNORECASE` compares an (already lowercased) literal pattern against
the text. -/
def startsWithCI : List Char → List Char → Bool
  | [], _ => true
  | _ :: _, [] => false
  | p :: ps, c :: cs => (p.toLower == c.toLower) && startsWithCI ps cs

/-- Case-insensitive substring test, modelling
`old_subject in description.lower()` with `old_subject` lowercased
(workflow_manager.py line 341). -/
def containsCI : List Char → List Char → Bool
  | pat, [] => pat.isEmpty
  | pat, c :: rest => startsWithCI pat (c :: rest) || containsCI pat rest

/-- Leftmost, non-overlapping, case-insensitive replace-all over
character lists, modelling `re.sub(old, new, desc, flags=re.IGNORECASE)`
for a literal (metacharacter-free) pattern (workflow_manager.py
line 342).  The fuel argument is always called with the length of the
text; every step consumes at least one character of text and one unit of
fuel, so the fuel never runs out before the text does and the `0` arm is
unreachable for the initial call. -/
def replaceCIAux (pat rep : List Char) : Nat → List Char → List Char
  | _, [] => []
  | 0, s => s
  | fuel + 1, c :: rest =>
    if startsWithCI pat (c :: rest) then
      rep ++ replaceCIAux pat rep fuel (rest.drop (pat.length - 1))
    else
      c :: replaceCIAux pat rep fuel rest

/-- Entry point of the case-insensitive replacement. -/
def replaceCI (pat rep s : List Char) : List Char :=
  replaceCIAux pat rep s.length s

/-- The per-shot body of the `global_subject_swap` loop
(workflow_manager.py lines 340-351), threading the filesystem and the
affected count through the shot list. -/
def swapList (oldL newL : String) : FS → List Shot → List Shot × FS × Nat
  | fs, [] => ([], fs, 0)
  | fs, s :: rest =>
    if containsCI oldL.data s.description.data = true then
      let s1 := resetShot { s with
        description := String.mk (replaceCI oldL.data newL.data s.description.data) }
      let fs1 := clearShotArtifacts fs s.shot_id
      let r := swapList oldL newL fs1 rest
      (s1 :: r.1, r.2.1, r.2.2 + 1)
    else
      let r := swapList oldL newL fs rest
      (s :: r.1, r.2.1, r.2.2)

/-- Mutation of the first shot whose id matches, modelling the
`for ... if s["shot_id"] == sid: ...; break` pattern of
`update_shot_params` and `enhance_shot_description`.  Returns the updated
list and whether a match was found. -/
def updateShotFirst (sid : String) (f : Shot → Shot) : List Shot → List Shot × Bool
  | [] => ([], false)
  | s :: rest =>
    if s.shot_id = sid then (f s :: rest, true)
    else
      let r := updateShotFirst sid f rest
      (s :: r.1, r.2)

/-- The description produced by `enhance_shot_description`
(workflow_manager.py lines 376-382): the original description joined with
the optional spatial and style fragments by single spaces. -/
def enhanceDesc (orig spatial styleBoost : String) : String :=
  String.intercalate " "
    ([orig]
      ++ (if spatial ≠ "" then ["[Spatial: " ++ spatial ++ "]"] else [])
      ++ (if styleBoost ≠ "" then ["[Style: " ++ styleBoost ++ "]"] else []))

/-- The edit operations dispatched by `apply_agent_action`
(workflow_manager.py lines 320-393).  `other` stands for any operation
name that is none of the four known ones: such an action matches no
`elif` branch in the source. -/
inductive AgentOp where
  | set_global_style (value : String)
  | global_subject_swap (old_subject new_subject : String)
  | update_shot_params (shot_id : String) (description : Option String)
  | enhance_shot_description (shot_id : String) (spatial_info style_boost : String)
  | other (op : String)
deriving DecidableEq, Repr

/-- One iteration of the action loop of `apply_agent_action`.  For
`set_global_style` the source first resets every shot's statuses through
`apply_global_style` (changes.py lines 3-12, affected = number of shots)
and then, when that count is positive, deletes both artifacts and clears
both assets of every shot; over the document the two loops compose to the
single reset modelled here (and when the shot list is empty both loops
are empty). -/
def applyOne (acc : Workflow × FS × Nat) (a : AgentOp) : Workflow × FS × Nat :=
  let wf := acc.1
  let fs := acc.2.1
  let n := acc.2.2
  match a with
  | AgentOp.set_global_style v =>
    let wf1 := { wf with style_prompt := v, shots := wf.shots.map resetShot }
    (wf1, clearAllArtifacts fs wf.shots, n + wf.shots.length)
  | AgentOp.global_subject_swap old_subject new_subject =>
    let oldL := lowerStr old_subject
    let newL := lowerStr new_subject
    if oldL ≠ "" ∧ newL ≠ "" then
      let r := swapList oldL newL fs wf.shots
      ({ wf with shots := r.1 }, r.2.1, n + r.2.2)
    else (wf, fs, n)
  | AgentOp.update_shot_params sid d =>
    let r := updateShotFirst sid
      (fun s => resetShot { s with description := d.getD s.description }) wf.shots
    if r.2 = true then
      ({ wf with shots := r.1 }, clearShotArtifacts fs sid, n + 1)
    else ({ wf with shots := r.1 }, fs, n)
  | AgentOp.enhance_shot_description sid spatial styleBoost =>
    let r := updateShotFirst sid
      (fun s => resetShot { s with description := enhanceDesc s.description spatial styleBoost }) wf.shots
    if r.2 = true then
      ({ wf with shots := r.1 }, clearShotArtifacts fs sid, n + 1)
    else ({ wf with shots := r.1 }, fs, n)
  | AgentOp.other _ => (wf, fs, n)

/-- The outcome of `apply_agent_action`: the resulting document and
filesystem, the reported affected count, and whether `save()` ran
(workflow_manager.py line 395: only when the total affected count is
positive). -/
structure ApplyResult where
  wf : Workflow
  fs : FS
  affected : Nat
  persisted : Bool
deriving DecidableEq, Repr

/-- `WorkflowManager.apply_agent_action` (workflow_manager.py
lines 315-396) over a batch of actions. -/
def apply_agent_action (fs : FS) (wf : Workflow) (actions : List AgentOp) : ApplyResult :=
  let r := actions.foldl applyOne (wf, fs, 0)
  { wf := r.1, fs := r.2.1, affected := r.2.2, persisted := decide (0 < r.2.2) }

/-- The per-shot body of `run_stylize` (runner.py lines 153-164 together
with `mock_stylize_frame`, lines 18-26): the stylizer succeeds exactly
when the shot's first frame exists, in which case the stylized frame is
written and recorded and the status becomes SUCCESS; otherwise the status
becomes FAILED and the failure detail is recorded in the errors map.  The
transient RUNNING write and the surrounding saves land in states that the
subsequent terminal write overwrites, so only the terminal state is
modelled. -/
def run_stylize_shot (fs : FS) (s : Shot) : Shot × FS :=
  if fs.has s.assets.first_frame = true then
    ({ s with status.stylize := Status.SUCCESS,
              assets.stylized_frame := some (stylizedPath s.shot_id) },
     fs.add (stylizedPath s.shot_id))
  else
    ({ s with status.stylize := Status.FAILED,
              errors.stylize := some ("first_frame not found: " ++ s.assets.first_frame) }, fs)

/-- The per-shot body of `run_video_generate` (runner.py lines 173-191).
The external synthesizer (Veo or the ffmpeg mock) is modelled by the
oracle `vgen` on the shot id: on success the video artifact is written
and recorded and the status becomes SUCCESS; on any exception the status
becomes FAILED and the failure detail is recorded. -/
def run_video_shot (vgen : String → Bool) (fs : FS) (s : Shot) : Shot × FS :=
  if vgen s.shot_id = true then
    ({ s with status.video_generate := Status.SUCCESS,
              assets.video := some (videoPath s.shot_id) },
     fs.add (videoPath s.shot_id))
  else
    ({ s with status.video_generate := Status.FAILED,
              errors.video_generate := some "video generation raised" }, fs)

/-- Shot selection of `run_stylize` (runner.py lines 150-152): with a
target, exactly the shots with that id, regardless of status; without a
target, exactly the shots whose stylize status is NOT_STARTED or
FAILED. -/
def stylizeSelect (target : Option String) (s : Shot) : Bool :=
  match target with
  | some t => s.shot_id == t
  | none => s.status.stylize == Status.NOT_STARTED || s.status.stylize == Status.FAILED

/-- Shot selection of `run_video_generate` (runner.py lines 170-172). -/
def videoSelect (target : Option String) (s : Shot) : Bool :=
  match target with
  | some t => s.shot_id == t
  | none => s.status.video_generate == Status.NOT_STARTED || s.status.video_generate == Status.FAILED

/-- The shared shot-loop shape of runner.py: walk the shot list in order,
process the selected shots with the per-shot body, leave the others
untouched, threading the filesystem. -/
def runShots (proc : Shot → Bool) (stepF : FS → Shot → Shot × FS) : FS → List Shot → List Shot × FS
  | fs, [] => ([], fs)
  | fs, s :: rest =>
    if proc s = true then
      let p := stepF fs s
      let r := runShots proc stepF p.2 rest
      (p.1 :: r.1, r.2)
    else
      let r := runShots proc stepF fs rest
      (s :: r.1, r.2)

/-- `run_stylize` (runner.py lines 147-164). -/
def run_stylize (fs : FS) (wf : Workflow) (target : Option String) : Workflow × FS :=
  let r := runShots (stylizeSelect target) run_stylize_shot fs wf.shots
  ({ wf with shots := r.1 }, r.2)

/-- `run_video_generate` (runner.py lines 167-191). -/
def run_video_generate (vgen : String → Bool) (fs : FS) (wf : Workflow) (target : Option String) :
    Workflow × FS :=
  let r := runShots (videoSelect target) (run_video_shot vgen) fs wf.shots
  ({ wf with shots := r.1 }, r.2)

/-- The two stage names `run_node` accepts. -/
inductive NodeType where
  | stylize
  | video_generate
deriving DecidableEq, Repr

/-- Target-shot selection of `run_node` (workflow_manager.py line 403):
`not shot_id or s["shot_id"] == shot_id`. -/
def isTarget (target : Option String) (s : Shot) : Bool :=
  match target with
  | none => true
  | some t => s.shot_id == t

/-- One iteration of the dependency-repair loop of `run_node`
(workflow_manager.py lines 406-413): look up the target shot; when its
stylize status is not SUCCESS, run `run_stylize` targeted at it, then, if
the stylized frame now exists on disk, set the status to SUCCESS and
record the asset path. -/
def depRepairStep (acc : Workflow × FS) (sid : String) : Workflow × FS :=
  let wf := acc.1
  let fs := acc.2
  match wf.shots.find? (fun t => t.shot_id == sid) with
  | none => acc
  | some s =>
    if s.status.stylize ≠ Status.SUCCESS then
      let r := run_stylize fs wf (some sid)
      if r.2.has (stylizedPath sid) = true then
        ({ r.1 with shots := r.1.shots.map (fun t =>
            if t.shot_id = sid then
              { t with status.stylize := Status.SUCCESS,
                       assets.stylized_frame := some (stylizedPath sid) }
            else t) }, r.2)
      else r
    else acc

/-- The dependency-repair phase of `run_node` for `video_generate`
(workflow_manager.py lines 405-413), iterating over the target shots. -/
def dependencyRepair (fs : FS) (wf : Workflow) (target : Option String) : Workflow × FS :=
  ((wf.shots.filter (isTarget target)).map Shot.shot_id).foldl depRepairStep (wf, fs)

/-- The phase of `run_node` before the clear loop: for `video_generate`,
the dependency repair; for `stylize`, nothing. -/
def runNodeRepair (fs : FS) (wf : Workflow) (nt : NodeType) (target : Option String) :
    Workflow × FS :=
  match nt with
  | NodeType.video_generate => dependencyRepair fs wf target
  | NodeType.stylize => (wf, fs)

/-- Setting the job-level `global_stages` indicator for the requested
stage to RUNNING (workflow_manager.py lines 415-416; the key is
`video_gen` for `video_generate` and `stylize` otherwise). -/
def setStageRunning (nt : NodeType) (wf : Workflow) : Workflow :=
  match nt with
  | NodeType.video_generate => { wf with video_gen_stage := Status.RUNNING }
  | NodeType.stylize => { wf with stylize_stage := Status.RUNNING }

/-- The artifact path of the requested stage for a shot id. -/
def artifactPath (nt : NodeType) (sid : String) : String :=
  match nt with
  | NodeType.video_generate => videoPath sid
  | NodeType.stylize => stylizedPath sid

/-- The per-shot reset of the clear loop of `run_node`
(workflow_manager.py lines 419-428): the requested stage's status is set
to NOT_STARTED and its asset cleared. -/
def clearShotFor (nt : NodeType) (s : Shot) : Shot :=
  match nt with
  | NodeType.video_generate =>
    { s with status.video_generate := Status.NOT_STARTED, assets.video := none }
  | NodeType.stylize =>
    { s with status.stylize := Status.NOT_STARTED, assets.stylized_frame := none }

/-- Deletion of the requested stage's pre-existing artifacts for the
target shots (workflow_manager.py lines 420-421 and 425-426). -/
def clearTargetFiles (nt : NodeType) : FS → List Shot → FS
  | fs, [] => fs
  | fs, s :: rest => clearTargetFiles nt (fs.removeFile (artifactPath nt s.shot_id)) rest

/-- The clear loop of `run_node` (workflow_manager.py lines 418-428):
for every target shot, delete the stage's pre-existing artifact, set the
stage's status to NOT_STARTED and clear its asset. -/
def clearStep (nt : NodeType) (fs : FS) (wf : Workflow) (target : Option String) :
    Workflow × FS :=
  ({ wf with shots := wf.shots.map (fun s => if isTarget target s = true then clearShotFor nt s else s) },
   clearTargetFiles nt fs (wf.shots.filter (isTarget target)))

/-- The outcome of `run_node`: the final document (re-loaded through the
reconciler, workflow_manager.py line 437) and filesystem, together with
the document and filesystem state persisted by the `save()` on line 430,
immediately before the stage generator is invoked. -/
structure RunNodeResult where
  wf : Workflow
  fs : FS
  wfBeforeGen : Workflow
  fsBeforeGen : FS
deriving DecidableEq, Repr

/-- `WorkflowManager.run_node` (workflow_manager.py lines 398-437):
dependency repair (for `video_generate`), mark the global stage
indicator RUNNING, clear the target shots, persist, invoke the stage
generator, then re-load.  The `meta.attempts` counter is not modelled. -/
def run_node (vgen : String → Bool) (fs : FS) (wf : Workflow) (nt : NodeType)
    (target : Option String) : RunNodeResult :=
  let p := runNodeRepair fs wf nt target
  let wf2 := setStageRunning nt p.1
  let q := clearStep nt p.2 wf2 target
  let r :=
    match nt with
    | NodeType.stylize => run_stylize q.2 q.1 target
    | NodeType.video_generate => run_video_generate vgen q.2 q.1 target
  { wf := load r.2 r.1, fs := r.2, wfBeforeGen := q.1, fsBeforeGen := q.2 }

/-- A freshly initialized shot, as built by `initialize_from_file`
(workflow_manager.py lines 57-73). -/
def baseShot (sid : String) : Shot :=
  { shot_id := sid
    description := ""
    assets :=
      { first_frame := "frames/" ++ sid ++ ".png"
        source_video_segment := "source_segments/" ++ sid ++ ".mp4"
        stylized_frame := none
        video := none }
    status := { stylize := Status.NOT_STARTED, video_generate := Status.NOT_STARTED }
    errors := { stylize := none, video_generate := none } }

/-- A workflow document over a given shot list, with the global fields as
initialized by `initialize_from_file` (workflow_manager.py lines 75-85). -/
def baseWf (shots : List Shot) : Workflow :=
  { style_prompt := "Cinematic Realistic"
    stylize_stage := Status.NOT_STARTED
    video_gen_stage := Status.NOT_STARTED
    merge_stage := Status.NOT_STARTED
    shots := shots
    merge_info := none }

/-- Fixture: a job whose only shot declares stylize SUCCESS, used with an
empty filesystem (so the declared stylized frame is absent). -/
def wfStyNoFile : Workflow :=
  baseWf [{ baseShot "shot_01" with
              status.stylize := Status.SUCCESS,
              assets.stylized_frame := some "stylized_frames/shot_01.png" }]

/-- Fixture: a shot that declares video_generate FAILED. -/
def shotVgFailed : Shot :=
  { baseShot "shot_01" with status.video_generate := Status.FAILED }

/-- Fixture: a job whose only shot declares video_generate FAILED. -/
def wfVgFailedFile : Workflow :=
  baseWf [shotVgFailed]

/-- Fixture: a shot that declares video_generate SUCCESS with a recorded
video asset. -/
def shotVgSuccess : Shot :=
  { baseShot "shot_01" with
      status.video_generate := Status.SUCCESS,
      assets.video := some "videos/shot_01.mp4" }

/-- Fixture: a filesystem holding only the shot_01 video artifact. -/
def fsVgFile : FS :=
  ⟨["videos/shot_01.mp4"]⟩

/-- Fixture: a shot whose video generation succeeded. -/
def shotMergeOk : Shot :=
  { baseShot "shot_01" with
      status.video_generate := Status.SUCCESS,
      assets.video := some "videos/shot_01.mp4" }

/-- Fixture: a shot whose video generation failed. -/
def shotMergeFailed : Shot :=
  { baseShot "shot_02" with status.video_generate := Status.FAILED }

/-- Fixture: a job with one successful and one failed shot. -/
def wfPartialMerge : Workflow :=
  baseWf [shotMergeOk, shotMergeFailed]

/-- The successful merge outcome on `wfPartialMerge`. -/
def mergeOkC1 : MergeOk :=
  { wf := { wfPartialMerge with merge_stage := Status.SUCCESS }
    output := "final_output.mp4"
    merged := [shotMergeOk]
    concatPaths := ["videos/shot_01.mp4"] }

/-- Fixture: a job with one shot whose description mentions a Dog. -/
def demoSwapWf : Workflow :=
  baseWf [{ baseShot "shot_01" with description := "A Dog runs" }]

/-- Fixture: a shot whose earlier stylize attempt failed and left a
failure detail in the errors map. -/
def shotRetry : Shot :=
  { baseShot "shot_01" with
      status.stylize := Status.FAILED,
      errors.stylize := some "old failure" }

/-- Fixture: the filesystem holding shot_01's first frame. -/
def fsFirstFrame : FS :=
  ⟨["frames/shot_01.png"]⟩

/-- Fixture: a job with the single retried shot. -/
def wfRetry : Workflow :=
  baseWf [shotRetry]

/-- Fixture: a job whose only shot has a SUCCESS video and its artifact
on disk, for observing the clear step of `run_node`. -/
def wfClear : Workflow :=
  baseWf [shotVgSuccess]

/-- Fixture: the filesystem holding shot_01's video artifact. -/
def fsClear : FS :=
  ⟨["videos/shot_01.mp4"]⟩

/-- Fixture: a shot that already succeeded at both stages. -/
def shotSelDone : Shot :=
  { baseShot "shot_01" with
      status := { stylize := Status.SUCCESS, video_generate := Status.SUCCESS },
      assets.stylized_frame := some "stylized_frames/shot_01.png",
      assets.video := some "videos/shot_01.mp4" }

/-- Fixture: a two-shot job where shot_01 already succeeded at both
stages and shot_02 is untouched, for the runner selection claims. -/
def wfSelect : Workflow :=
  baseWf [shotSelDone, baseShot "shot_02"]

/-- Fixture: the expected shot state handed to the video generator in the
dependency-repair witness scenario. -/
def shotRepaired : Shot :=
  { baseShot "shot_01" with
      status.stylize := Status.SUCCESS,
      assets.stylized_frame := some "stylized_frames/shot_01.png" }

/-- The per-shot status entry of the requested stage. -/
def stageStatus : NodeType → Shot → Status
  | NodeType.stylize, s => s.status.stylize
  | NodeType.video_generate, s => s.status.video_generate

/-- The per-shot asset entry of the requested stage. -/
def stageAsset : NodeType → Shot → Option String
  | NodeType.stylize, s => s.assets.stylized_frame
  | NodeType.video_generate, s => s.assets.video

/-- The job-level `global_stages` indicator of the requested stage. -/
def stageIndicator : NodeType → Workflow → Status
  | NodeType.stylize, wf => wf.stylize_stage
  | NodeType.video_generate, wf => wf.video_gen_stage

/-- Fixture: the state of wfClear's shot as persisted right before the
video generator runs (its stylize repair failed for lack of a first
frame, and the clear step reset the video stage). -/
def shotCleared : Shot :=
  { baseShot "shot_01" with
      status.stylize := Status.FAILED,
      errors.stylize := some "first_frame not found: frames/shot_01.png" }

theorem reconcileShot_shot_id (fs : FS) (s : Shot) :
    (reconcileShot fs s).shot_id = s.shot_id := by
  simp only [reconcileShot]
  split_ifs <;> rfl

theorem reconcileShot_vg_iff (fs : FS) (s : Shot) :
    ((reconcileShot fs s).status.video_generate = Status.SUCCESS)
      ↔ fs.has (videoPath s.shot_id) = true := by
  simp only [reconcileShot]
  cases hb : fs.has (videoPath s.shot_id) <;> split_ifs <;> simp_all

theorem reconcileShot_stylize_keeps_success (fs : FS) (s : Shot)
    (h : s.status.stylize = Status.SUCCESS) :
    (reconcileShot fs s).status.stylize = Status.SUCCESS ∧
    (reconcileShot fs s).assets.stylized_frame = s.assets.stylized_frame := by
  simp only [reconcileShot]
  split_ifs <;> simp_all

/-- C2 counterexample: a shot that declares `stylize = SUCCESS` while its
stylized frame is absent from the filesystem is not demoted by `load`:
its status stays SUCCESS and its asset path is kept, although the file
does not exist.  This refutes the claim that `load` demotes
SUCCESS-without-artifact shots for both artifact-producing stages. -/
theorem load_no_stylize_demotion_counterexample :
    (load ⟨[]⟩ wfStyNoFile).shots.map (fun s => s.status.stylize) = [Status.SUCCESS] ∧
    (load ⟨[]⟩ wfStyNoFile).shots.map (fun s => s.assets.stylized_frame)
      = [some "stylized_frames/shot_01.png"] ∧
    FS.has ⟨[]⟩ "stylized_frames/shot_01.png" = false := by
  decide

/-- C2 (amended): the SUCCESS-with-missing-artifact demotion of `load`
applies only to the `video_generate` stage: after `load`, a shot has
`video_generate = SUCCESS` exactly when its video artifact exists, and a
shot that declared SUCCESS with the video absent is demoted to
NOT_STARTED with its video asset cleared.  The `stylize` stage is never
demoted: a shot with `stylize = SUCCESS` keeps that status and its
recorded stylized-frame path, whether or not the file exists. -/
theorem load_demotion_amended (fs : FS) (wf : Workflow) :
    (∀ s ∈ (load fs wf).shots,
        (s.status.video_generate = Status.SUCCESS ↔ fs.has (videoPath s.shot_id) = true)) ∧
    (∀ s ∈ wf.shots, s.status.video_generate = Status.SUCCESS →
        fs.has (videoPath s.shot_id) = false →
        (reconcileShot fs s).status.video_generate = Status.NOT_STARTED ∧
        (reconcileShot fs s).assets.video = none) ∧
    (∀ s ∈ wf.shots, s.status.stylize = Status.SUCCESS →
        (reconcileShot fs s).status.stylize = Status.SUCCESS ∧
        (reconcileShot fs s).assets.stylized_frame = s.assets.stylized_frame) := by
  refine ⟨?_, ?_, ?_⟩
  · intro s hs
    simp only [load, List.mem_map] at hs
    obtain ⟨s0, _, rfl⟩ := hs
    rw [reconcileShot_shot_id]
    exact reconcileShot_vg_iff fs s0
  · intro s _ hvg hfile
    simp only [reconcileShot]
    split_ifs with h1 h2 h3 <;> simp_all
  · intro s _ hsty
    exact reconcileShot_stylize_keeps_success fs s hsty

/-- C2 (amended) witness: the demotion clause instantiated on a shot
that declares video_generate SUCCESS over an empty filesystem. -/
theorem load_demotion_amended_witness :
    (reconcileShot ⟨[]⟩ shotVgSuccess).status.video_generate = Status.NOT_STARTED ∧
    (reconcileShot ⟨[]⟩ shotVgSuccess).assets.video = none :=
  (load_demotion_amended ⟨[]⟩ (baseWf [shotVgSuccess])).2.1 shotVgSuccess
    (by decide) (by decide) (by decide)

/-- C3 counterexample: a shot that declares `video_generate = FAILED`
while its video artifact exists on disk is promoted to SUCCESS by
`load`, refuting the claim that reconciliation promotes only shots whose
declared status is RUNNING and leaves FAILED shots untouched. -/
theorem load_promotes_failed_counterexample :
    (load fsVgFile wfVgFailedFile).shots.map (fun s => s.status.video_generate)
      = [Status.SUCCESS] ∧
    wfVgFailedFile.shots.map (fun s => s.status.video_generate) = [Status.FAILED] := by
  decide

/-- C3 (amended): reconciliation promotes a stage to SUCCESS whenever the
stage's artifact exists and the declared status is anything other than
SUCCESS — RUNNING, FAILED and NOT_STARTED alike — populating the asset
path; when the artifact is absent, stylize is left untouched, and
video_generate is left untouched for every non-SUCCESS status. -/
theorem reconcile_promotion_amended (fs : FS) (s : Shot) :
    (fs.has (stylizedPath s.shot_id) = true →
        (reconcileShot fs s).status.stylize = Status.SUCCESS ∧
        (s.status.stylize ≠ Status.SUCCESS →
          (reconcileShot fs s).assets.stylized_frame = some (stylizedPath s.shot_id))) ∧
    (fs.has (stylizedPath s.shot_id) = false →
        (reconcileShot fs s).status.stylize = s.status.stylize ∧
        (reconcileShot fs s).assets.stylized_frame = s.assets.stylized_frame) ∧
    (fs.has (videoPath s.shot_id) = true →
        (reconcileShot fs s).status.video_generate = Status.SUCCESS ∧
        (s.status.video_generate ≠ Status.SUCCESS →
          (reconcileShot fs s).assets.video = some (videoPath s.shot_id))) ∧
    (fs.has (videoPath s.shot_id) = false → s.status.video_generate ≠ Status.SUCCESS →
        (reconcileShot fs s).status.video_generate = s.status.video_generate ∧
        (reconcileShot fs s).assets.video = s.assets.video) := by
  refine ⟨?_, ?_, ?_, ?_⟩ <;>
    (intros
     simp only [reconcileShot]
     split_ifs <;> simp_all)

/-- C3 (amended) witness: the promotion clause instantiated on the
FAILED shot whose video artifact is on disk. -/
theorem reconcile_promotion_amended_witness :
    (reconcileShot fsVgFile shotVgFailed).status.video_generate = Status.SUCCESS ∧
    (reconcileShot fsVgFile shotVgFailed).assets.video
      = some (videoPath shotVgFailed.shot_id) := by
  have h := (reconcile_promotion_amended fsVgFile shotVgFailed).2.2.1 (by decide)
  exact ⟨h.1, h.2 (by decide)⟩

/-- C1 counterexample: on a job with one SUCCESS shot and one FAILED
shot, `merge_videos` succeeds (merging only the successful shot) even
though not every shot is in `video_generate = SUCCESS`, refuting the
claim that merge fails whenever any shot is not SUCCESS. -/
theorem merge_accepts_partial_counterexample :
    isOkB (merge_videos wfPartialMerge true) = true ∧
    wfPartialMerge.shots.all (fun s => s.status.video_generate == Status.SUCCESS) = false := by
  decide

/-- C1 (amended): `merge_videos` fails only when the job has no shot
with `video_generate = SUCCESS` (or the ffmpeg concat itself fails);
when at least one shot is SUCCESS and ffmpeg succeeds it returns
`final_output.mp4`, merges exactly the SUCCESS shots sorted by shot id
(regardless of FAILED or pending siblings), and marks the global merge
stage SUCCESS.  On failure it raises before mutating the document, so
the merge indicator is left unchanged. -/
theorem merge_videos_amended (wf : Workflow) (ffmpegOk : Bool) :
    (isOkB (merge_videos wf ffmpegOk) = true ↔ successShots wf ≠ [] ∧ ffmpegOk = true) ∧
    (∀ r, merge_videos wf ffmpegOk = Except.ok r →
        r.output = "final_output.mp4" ∧
        r.merged = sortByShotId (successShots wf) ∧
        r.wf = { wf with merge_stage := Status.SUCCESS }) := by
  unfold merge_videos
  by_cases h : successShots wf = []
  · simp [h, isOkB]
  · cases ffmpegOk <;> simp [h, isOkB]

/-- C1 (amended) witness: the amended statement instantiated on the
partially successful fixture job, with the concrete successful merge
outcome. -/
theorem merge_videos_amended_witness :
    (isOkB (merge_videos wfPartialMerge true) = true
      ↔ successShots wfPartialMerge ≠ [] ∧ true = true) ∧
    (mergeOkC1.output = "final_output.mp4" ∧
     mergeOkC1.merged = sortByShotId (successShots wfPartialMerge) ∧
     mergeOkC1.wf = { wfPartialMerge with merge_stage := Status.SUCCESS }) :=
  ⟨(merge_videos_amended wfPartialMerge true).1,
   (merge_videos_amended wfPartialMerge true).2 mergeOkC1 (by rfl)⟩

/-- C7: applying an action whose operation name is none of the known
ones (modelled by `AgentOp.other`) performs no mutation at all: the
document and filesystem are returned unchanged, the affected count is 0,
and the document is not persisted. -/
theorem apply_unknown_op_no_mutation (fs : FS) (wf : Workflow) (opName : String) :
    apply_agent_action fs wf [AgentOp.other opName] =
      { wf := wf, fs := fs, affected := 0, persisted := false } :=
  rfl

theorem updateShotFirst_no_match (sid : String) (f : Shot → Shot) :
    ∀ l : List Shot, (∀ s ∈ l, s.shot_id ≠ sid) → updateShotFirst sid f l = (l, false) := by
  intro l
  induction l with
  | nil => intro _; rfl
  | cons s rest ih =>
    intro h
    simp only [updateShotFirst]
    rw [if_neg (h s (List.mem_cons_self s rest))]
    rw [ih (fun t ht => h t (List.mem_cons_of_mem s ht))]

/-- C8: applying `update_shot_params` with a shot id that no shot of the
job carries is a no-op: the document (all descriptions, statuses and
assets) and the filesystem are unchanged, the affected count is 0, and
the document is not persisted. -/
theorem apply_update_unknown_shot_noop (fs : FS) (wf : Workflow) (sid : String)
    (d : Option String) (h : ∀ s ∈ wf.shots, s.shot_id ≠ sid) :
    apply_agent_action fs wf [AgentOp.update_shot_params sid d] =
      { wf := wf, fs := fs, affected := 0, persisted := false } := by
  have hu := updateShotFirst_no_match sid
    (fun s => resetShot { s with description := d.getD s.description }) wf.shots h
  simp only [apply_agent_action, List.foldl_cons, List.foldl_nil, applyOne, hu]
  rfl

/-- C8 witness: the no-op instantiated on a one-shot job and an unknown
shot id. -/
theorem apply_update_unknown_shot_noop_witness :
    apply_agent_action fsFirstFrame (baseWf [baseShot "shot_01"])
        [AgentOp.update_shot_params "shot_99" none] =
      { wf := baseWf [baseShot "shot_01"], fs := fsFirstFrame,
        affected := 0, persisted := false } :=
  apply_update_unknown_shot_noop fsFirstFrame (baseWf [baseShot "shot_01"]) "shot_99" none
    (by decide)

/-- C9: the text `global_subject_swap` inserts for the new subject is
its lowercase form, regardless of the casing the caller supplied: two
new-subject spellings with the same lowercase form produce identical
results on every document and filesystem, and on the fixture job the
caller's "CAT" is inserted as "cat". -/
theorem apply_swap_lowercases_new (old_subject newA newB : String)
    (h : lowerStr newA = lowerStr newB) :
    (∀ fs wf, apply_agent_action fs wf [AgentOp.global_subject_swap old_subject newA]
        = apply_agent_action fs wf [AgentOp.global_subject_swap old_subject newB]) ∧
    (apply_agent_action ⟨[]⟩ demoSwapWf
        [AgentOp.global_subject_swap "dog" "CAT"]).wf.shots.map Shot.description
      = ["A cat runs"] := by
  constructor
  · intro fs wf
    simp only [apply_agent_action, List.foldl_cons, List.foldl_nil, applyOne, h]
  · decide

/-- C9 witness: the casing-invariance applied to the spellings "CAT" and
"Cat" on the fixture job. -/
theorem apply_swap_lowercases_new_witness :
    apply_agent_action ⟨[]⟩ demoSwapWf [AgentOp.global_subject_swap "dog" "CAT"]
      = apply_agent_action ⟨[]⟩ demoSwapWf [AgentOp.global_subject_swap "dog" "Cat"] ∧
    (apply_agent_action ⟨[]⟩ demoSwapWf
        [AgentOp.global_subject_swap "dog" "CAT"]).wf.shots.map Shot.description
      = ["A cat runs"] :=
  ⟨(apply_swap_lowercases_new "dog" "CAT" "Cat" (by decide)).1 ⟨[]⟩ demoSwapWf,
   (apply_swap_lowercases_new "dog" "CAT" "Cat" (by decide)).2⟩

theorem runShots_skip (proc : Shot → Bool) (stepF : FS → Shot → Shot × FS) :
    ∀ (l : List Shot) (fs : FS) (i : Nat) (s : Shot),
      l[i]? = some s → proc s = false →
      ((runShots proc stepF fs l).1)[i]? = some s := by
  intro l
  induction l with
  | nil => intro fs i s h _; simp at h
  | cons hd tl ih =>
    intro fs i s h hp
    cases i with
    | zero =>
      simp only [List.getElem?_cons_zero, Option.some_inj] at h
      subst h
      have hc : ¬ proc hd = true := by simp [hp]
      simp only [runShots, if_neg hc, List.getElem?_cons_zero]
    | succ n =>
      simp only [List.getElem?_cons_succ] at h
      by_cases hc : proc hd = true
      · simp only [runShots, if_pos hc, List.getElem?_cons_succ]
        exact ih _ n s h hp
      · simp only [runShots, if_neg hc, List.getElem?_cons_succ]
        exact ih fs n s h hp

theorem runShots_first (proc : Shot → Bool) (stepF : FS → Shot → Shot × FS) :
    ∀ (l : List Shot) (fs : FS) (i : Nat) (s : Shot),
      l[i]? = some s → proc s = true →
      (∀ j t, j < i → l[j]? = some t → proc t = false) →
      ((runShots proc stepF fs l).1)[i]? = some (stepF fs s).1 := by
  intro l
  induction l with
  | nil => intro fs i s h _ _; simp at h
  | cons hd tl ih =>
    intro fs i s h hp hearlier
    cases i with
    | zero =>
      simp only [List.getElem?_cons_zero, Option.some_inj] at h
      subst h
      simp only [runShots, if_pos hp, List.getElem?_cons_zero]
    | succ n =>
      simp only [List.getElem?_cons_succ] at h
      have hhd : proc hd = false :=
        hearlier 0 hd (Nat.succ_pos n) (List.getElem?_cons_zero)
      have hc : ¬ proc hd = true := by simp [hhd]
      simp only [runShots, if_neg hc, List.getElem?_cons_succ]
      exact ih fs n s h hp
        (fun j t hj ht => hearlier (j + 1) t (Nat.succ_lt_succ hj) (by simpa using ht))

/-- C6 counterexample: a shot whose earlier stylize attempt left the
failure detail "old failure" in the errors map is retried successfully
(its first frame exists), yet after the successful run the stale error
entry is still present, refuting the claim that a prior error is cleared
on successful retry. -/
theorem runner_keeps_stale_error_counterexample :
    (run_stylize fsFirstFrame wfRetry (some "shot_01")).1.shots.map
        (fun s => (s.status.stylize, s.errors.stylize))
      = [(Status.SUCCESS, some "old failure")] := by
  decide

/-- C6 (amended): when a stage generator succeeds for a shot, the
executor sets that stage's status to SUCCESS and records the returned
artifact path, but it does not touch the errors map: a failure detail
recorded by an earlier attempt survives the successful retry (the source
writes `errors[stage]` only in the failure branch). -/
theorem runner_success_keeps_error (fs : FS) (s : Shot) (vgen : String → Bool) :
    (fs.has s.assets.first_frame = true →
        (run_stylize_shot fs s).1.status.stylize = Status.SUCCESS ∧
        (run_stylize_shot fs s).1.assets.stylized_frame = some (stylizedPath s.shot_id) ∧
        (run_stylize_shot fs s).1.errors = s.errors) ∧
    (vgen s.shot_id = true →
        (run_video_shot vgen fs s).1.status.video_generate = Status.SUCCESS ∧
        (run_video_shot vgen fs s).1.assets.video = some (videoPath s.shot_id) ∧
        (run_video_shot vgen fs s).1.errors = s.errors) := by
  constructor
  · intro h
    simp [run_stylize_shot, h]
  · intro h
    simp [run_video_shot, h]

/-- C6 (amended) witness: the stylize clause instantiated on the retried
fixture shot whose first frame exists. -/
theorem runner_success_keeps_error_witness :
    (run_stylize_shot fsFirstFrame shotRetry).1.status.stylize = Status.SUCCESS ∧
    (run_stylize_shot fsFirstFrame shotRetry).1.assets.stylized_frame
      = some (stylizedPath shotRetry.shot_id) ∧
    (run_stylize_shot fsFirstFrame shotRetry).1.errors = shotRetry.errors :=
  (runner_success_keeps_error fsFirstFrame shotRetry (fun _ => true)).1 (by decide)

/-- C10: without a target shot id, `run_stylize` and
`run_video_generate` leave every shot whose status for their stage is
SUCCESS or RUNNING entirely unchanged (they process only NOT_STARTED and
FAILED shots); with a target shot id, the named shot is handed to the
per-shot stage body regardless of its current status. -/
theorem runner_shot_selection (fs : FS) (wf : Workflow) (vgen : String → Bool) :
    (∀ (i : Nat) (s : Shot), wf.shots[i]? = some s →
        (s.status.stylize = Status.SUCCESS ∨ s.status.stylize = Status.RUNNING) →
        ((run_stylize fs wf none).1.shots)[i]? = some s) ∧
    (∀ (i : Nat) (s : Shot), wf.shots[i]? = some s →
        (s.status.video_generate = Status.SUCCESS ∨ s.status.video_generate = Status.RUNNING) →
        ((run_video_generate vgen fs wf none).1.shots)[i]? = some s) ∧
    (∀ (t : String) (i : Nat) (s : Shot), wf.shots[i]? = some s → s.shot_id = t →
        (∀ (j : Nat) (u : Shot), j < i → wf.shots[j]? = some u → u.shot_id ≠ t) →
        ((run_stylize fs wf (some t)).1.shots)[i]? = some (run_stylize_shot fs s).1) ∧
    (∀ (t : String) (i : Nat) (s : Shot), wf.shots[i]? = some s → s.shot_id = t →
        (∀ (j : Nat) (u : Shot), j < i → wf.shots[j]? = some u → u.shot_id ≠ t) →
        ((run_video_generate vgen fs wf (some t)).1.shots)[i]?
          = some (run_video_shot vgen fs s).1) := by
  refine ⟨?_, ?_, ?_, ?_⟩
  · intro i s h hs
    have hp : stylizeSelect none s = false := by
      rcases hs with h1 | h1 <;> simp [stylizeSelect, h1]
    exact runShots_skip _ _ wf.shots fs i s h hp
  · intro i s h hs
    have hp : videoSelect none s = false := by
      rcases hs with h1 | h1 <;> simp [videoSelect, h1]
    exact runShots_skip _ _ wf.shots fs i s h hp
  · intro t i s h hid hearlier
    have hp : stylizeSelect (some t) s = true := by
      simp [stylizeSelect, hid]
    refine runShots_first _ _ wf.shots fs i s h hp ?_
    intro j u hj hu
    have := hearlier j u hj hu
    simp [stylizeSelect, this]
  · intro t i s h hid hearlier
    have hp : videoSelect (some t) s = true := by
      simp [videoSelect, hid]
    refine runShots_first _ _ wf.shots fs i s h hp ?_
    intro j u hj hu
    have := hearlier j u hj hu
    simp [videoSelect, this]

/-- C10 witness: on the two-shot fixture, an untargeted stylize run
leaves the already-successful shot_01 unchanged, and a run targeted at
shot_01 hands it to the stage body despite its SUCCESS status. -/
theorem runner_shot_selection_witness :
    ((run_stylize fsFirstFrame wfSelect none).1.shots)[0]? = some shotSelDone ∧
    ((run_stylize fsFirstFrame wfSelect (some "shot_01")).1.shots)[0]?
      = some (run_stylize_shot fsFirstFrame shotSelDone).1 :=
  ⟨(runner_shot_selection fsFirstFrame wfSelect (fun _ => true)).1 0 shotSelDone rfl
      (Or.inl (by decide)),
   (runner_shot_selection fsFirstFrame wfSelect (fun _ => true)).2.2.1 "shot_01" 0 shotSelDone
      rfl (by decide) (fun j u hj _ => absurd hj (Nat.not_lt_zero j))⟩

theorem FS.has_removeFile_self (fs : FS) (p : String) :
    (fs.removeFile p).has p = false := by
  simp [FS.has, FS.removeFile, List.mem_filter]

theorem FS.has_of_has_removeFile (fs : FS) (p q : String) :
    (fs.removeFile q).has p = true → fs.has p = true := by
  simp only [FS.has, FS.removeFile, decide_eq_true_eq, List.mem_filter]
  exact fun h => h.1

theorem FS.has_removeFile_false (fs : FS) (p q : String) :
    fs.has p = false → (fs.removeFile q).has p = false := by
  intro h
  cases hb : (fs.removeFile q).has p
  · rfl
  · rw [FS.has_of_has_removeFile fs p q hb] at h
    exact h

theorem clearTargetFiles_sub (nt : NodeType) :
    ∀ (l : List Shot) (fs : FS) (p : String),
      (clearTargetFiles nt fs l).has p = true → fs.has p = true := by
  intro l
  induction l with
  | nil => intro fs p h; exact h
  | cons hd tl ih =>
    intro fs p h
    exact FS.has_of_has_removeFile fs p _ (ih _ p h)

theorem clearTargetFiles_keeps_false (nt : NodeType) :
    ∀ (l : List Shot) (fs : FS) (p : String),
      fs.has p = false → (clearTargetFiles nt fs l).has p = false := by
  intro l
  induction l with
  | nil => intro fs p h; exact h
  | cons hd tl ih =>
    intro fs p h
    exact ih _ p (FS.has_removeFile_false fs p _ h)

theorem clearTargetFiles_removes (nt : NodeType) :
    ∀ (l : List Shot) (fs : FS) (sid : String),
      (∃ u ∈ l, u.shot_id = sid) →
      (clearTargetFiles nt fs l).has (artifactPath nt sid) = false := by
  intro l
  induction l with
  | nil => intro fs sid h; simp at h
  | cons hd tl ih =>
    intro fs sid h
    rcases h with ⟨u, hu, hid⟩
    rcases List.mem_cons.mp hu with rfl | hmem
    · subst hid
      exact clearTargetFiles_keeps_false nt tl _ _ (FS.has_removeFile_self fs _)
    · exact ih _ sid ⟨u, hmem, hid⟩

/-- C5 counterexample: running `run_node` for `video_generate` on a job
whose shot had a SUCCESS video sets the per-shot status in the persisted
before-generator state to NOT_STARTED, not RUNNING as the claim
states. -/
theorem run_node_clear_not_running_counterexample :
    (run_node (fun _ => true) fsClear wfClear NodeType.video_generate
        none).wfBeforeGen.shots.map (fun s => s.status.video_generate)
      = [Status.NOT_STARTED] ∧
    Status.NOT_STARTED ≠ Status.RUNNING := by
  decide

/-- C5 (amended): before invoking the generator, `run_node` deletes every
target shot's pre-existing artifact for the requested stage and sets its
per-shot status for that stage to NOT_STARTED (it is the job-level
global stage indicator, not the per-shot status, that is set to
RUNNING), clears the asset entry, and persists this state before the
generator collaborator is invoked. -/
theorem run_node_clear_amended (vgen : String → Bool) (fs : FS) (wf : Workflow)
    (nt : NodeType) (target : Option String) :
    (∀ s ∈ (run_node vgen fs wf nt target).wfBeforeGen.shots, isTarget target s = true →
        stageStatus nt s = Status.NOT_STARTED ∧
        stageAsset nt s = none ∧
        (run_node vgen fs wf nt target).fsBeforeGen.has (artifactPath nt s.shot_id) = false) ∧
    stageIndicator nt (run_node vgen fs wf nt target).wfBeforeGen = Status.RUNNING := by
  constructor
  · intro s hs htgt
    have hs' : s ∈ (clearStep nt (runNodeRepair fs wf nt target).2
        (setStageRunning nt (runNodeRepair fs wf nt target).1) target).1.shots := hs
    simp only [clearStep, List.mem_map] at hs'
    obtain ⟨s0, hs0, rfl⟩ := hs'
    by_cases hc : isTarget target s0 = true
    · rw [if_pos hc] at htgt ⊢
      refine ⟨?_, ?_, ?_⟩
      · cases nt <;> rfl
      · cases nt <;> rfl
      · have hid : (clearShotFor nt s0).shot_id = s0.shot_id := by cases nt <;> rfl
        have hmem : ∃ u ∈ (setStageRunning nt (runNodeRepair fs wf nt target).1).shots.filter
            (isTarget target), u.shot_id = s0.shot_id :=
          ⟨s0, List.mem_filter.mpr ⟨hs0, hc⟩, rfl⟩
        have := clearTargetFiles_removes nt _ (runNodeRepair fs wf nt target).2 s0.shot_id hmem
        rw [hid]
        exact this
    · rw [if_neg hc] at htgt
      exact absurd htgt hc
  · have : stageIndicator nt (setStageRunning nt (runNodeRepair fs wf nt target).1)
        = Status.RUNNING := by cases nt <;> rfl
    cases nt <;> exact this

/-- C5 (amended) witness: the amended statement instantiated on the
fixture job whose shot had a SUCCESS video artifact on disk. -/
theorem run_node_clear_amended_witness :
    (stageStatus NodeType.video_generate shotCleared = Status.NOT_STARTED ∧
     stageAsset NodeType.video_generate shotCleared = none ∧
     (run_node (fun _ => true) fsClear wfClear NodeType.video_generate none).fsBeforeGen.has
        (artifactPath NodeType.video_generate shotCleared.shot_id) = false) ∧
    stageIndicator NodeType.video_generate
        (run_node (fun _ => true) fsClear wfClear NodeType.video_generate none).wfBeforeGen
      = Status.RUNNING :=
  ⟨(run_node_clear_amended (fun _ => true) fsClear wfClear NodeType.video_generate none).1
      shotCleared (by decide) (by decide),
   (run_node_clear_amended (fun _ => true) fsClear wfClear NodeType.video_generate none).2⟩

theorem run_stylize_shot_shot_id (fs : FS) (s : Shot) :
    ((run_stylize_shot fs s).1).shot_id = s.shot_id := by
  simp only [run_stylize_shot]
  split_ifs <;> rfl

theorem FS.has_add_iff (fs : FS) (p q : String) :
    ((fs.add q).has p = true) ↔ (p = q ∨ fs.has p = true) := by
  simp [FS.has, FS.add]

theorem run_stylize_shot_fs_mono (fs : FS) (s : Shot) (p : String)
    (h : fs.has p = true) : ((run_stylize_shot fs s).2).has p = true := by
  simp only [run_stylize_shot]
  split_ifs
  · exact (FS.has_add_iff fs p _).mpr (Or.inr h)
  · exact h

theorem run_stylize_shot_fs_new (fs : FS) (s : Shot) (p : String)
    (h : ((run_stylize_shot fs s).2).has p = true) :
    fs.has p = true ∨ p = stylizedPath s.shot_id := by
  simp only [run_stylize_shot] at h
  split_ifs at h
  · rcases (FS.has_add_iff fs p _).mp h with h1 | h1
    · exact Or.inr h1
    · exact Or.inl h1
  · exact Or.inl h

theorem runShots_map_shot_id (proc : Shot → Bool) (stepF : FS → Shot → Shot × FS)
    (hid : ∀ (fs : FS) (s : Shot), ((stepF fs s).1).shot_id = s.shot_id) :
    ∀ (l : List Shot) (fs : FS),
      ((runShots proc stepF fs l).1).map Shot.shot_id = l.map Shot.shot_id := by
  intro l
  induction l with
  | nil => intro fs; rfl
  | cons hd tl ih =>
    intro fs
    by_cases hc : proc hd = true
    · simp only [runShots, if_pos hc, List.map_cons, ih, hid]
    · simp only [runShots, if_neg hc, List.map_cons, ih]

theorem runShots_fs_mono (proc : Shot → Bool) (stepF : FS → Shot → Shot × FS)
    (hm : ∀ (fs : FS) (s : Shot) (p : String),
        fs.has p = true → ((stepF fs s).2).has p = true) :
    ∀ (l : List Shot) (fs : FS) (p : String),
      fs.has p = true → ((runShots proc stepF fs l).2).has p = true := by
  intro l
  induction l with
  | nil => intro fs p h; exact h
  | cons hd tl ih =>
    intro fs p h
    by_cases hc : proc hd = true
    · simp only [runShots, if_pos hc]
      exact ih _ p (hm fs hd p h)
    · simp only [runShots, if_neg hc]
      exact ih fs p h

theorem runShots_fs_new (proc : Shot → Bool) (stepF : FS → Shot → Shot × FS)
    (newF : Shot → String)
    (hn : ∀ (fs : FS) (s : Shot) (p : String),
        ((stepF fs s).2).has p = true → fs.has p = true ∨ p = newF s) :
    ∀ (l : List Shot) (fs : FS) (p : String),
      ((runShots proc stepF fs l).2).has p = true →
      fs.has p = true ∨ ∃ u, u ∈ l ∧ proc u = true ∧ p = newF u := by
  intro l
  induction l with
  | nil => intro fs p h; exact Or.inl h
  | cons hd tl ih =>
    intro fs p h
    by_cases hc : proc hd = true
    · simp only [runShots, if_pos hc] at h
      rcases ih _ p h with h2 | ⟨u, hu, hup, hue⟩
      · rcases hn fs hd p h2 with h3 | h3
        · exact Or.inl h3
        · exact Or.inr ⟨hd, List.mem_cons_self hd tl, hc, h3⟩
      · exact Or.inr ⟨u, List.mem_cons_of_mem hd hu, hup, hue⟩
    · simp only [runShots, if_neg hc] at h
      rcases ih fs p h with h2 | ⟨u, hu, hup, hue⟩
      · exact Or.inl h2
      · exact Or.inr ⟨u, List.mem_cons_of_mem hd hu, hup, hue⟩

theorem stylizedPath_inj {a b : String} (h : stylizedPath a = stylizedPath b) : a = b := by
  have hdata := congrArg String.data h
  simp only [stylizedPath, String.data_append] at hdata
  have h1 : "stylized_frames/".data ++ a.data = "stylized_frames/".data ++ b.data :=
    List.append_cancel_right hdata
  have h2 : a.data = b.data := List.append_cancel_left h1
  exact congrArg String.mk h2

theorem find?_shot_id_of_getElem (l : List Shot) :
    ∀ (i : Nat) (s : Shot), l[i]? = some s → (l.map Shot.shot_id).Nodup →
      l.find? (fun t => t.shot_id == s.shot_id) = some s := by
  induction l with
  | nil => intro i s h _; simp at h
  | cons hd tl ih =>
    intro i s h hnd
    cases i with
    | zero =>
      simp only [List.getElem?_cons_zero, Option.some_inj] at h
      subst h
      simp [List.find?]
    | succ n =>
      simp only [List.getElem?_cons_succ] at h
      simp only [List.map_cons, List.nodup_cons] at hnd
      have hmem : s ∈ tl := List.mem_iff_getElem?.mpr ⟨n, h⟩
      have hne : (hd.shot_id == s.shot_id) = false := by
        simp only [beq_eq_false_iff_ne, ne_eq]
        intro he
        exact hnd.1 (he ▸ List.mem_map_of_mem Shot.shot_id hmem)
      simp only [List.find?, hne]
      exact ih n s h hnd.2

theorem depRepairStep_map_shot_id (acc : Workflow × FS) (sid : String) :
    ((depRepairStep acc sid).1).shots.map Shot.shot_id
      = acc.1.shots.map Shot.shot_id := by
  obtain ⟨wfA, fsA⟩ := acc
  simp only [depRepairStep]
  cases hf : wfA.shots.find? (fun t => t.shot_id == sid) with
  | none => rfl
  | some u =>
    dsimp only
    by_cases hs : u.status.stylize ≠ Status.SUCCESS
    · rw [if_pos hs]
      by_cases hh : (run_stylize fsA wfA (some sid)).2.has (stylizedPath sid) = true
      · rw [if_pos hh]
        show ((run_stylize fsA wfA (some sid)).1.shots.map _).map Shot.shot_id = _
        rw [List.map_map]
        calc ((run_stylize fsA wfA (some sid)).1.shots).map
              (Shot.shot_id ∘ fun t =>
                if t.shot_id = sid then
                  { t with status.stylize := Status.SUCCESS,
                           assets.stylized_frame := some (stylizedPath sid) }
                else t)
            = ((run_stylize fsA wfA (some sid)).1.shots).map Shot.shot_id := by
              refine List.map_congr_left ?_
              intro t _
              by_cases hts : t.shot_id = sid <;> simp [Function.comp, hts]
          _ = wfA.shots.map Shot.shot_id :=
              runShots_map_shot_id _ _ run_stylize_shot_shot_id wfA.shots fsA
      · rw [if_neg hh]
        exact runShots_map_shot_id _ _ run_stylize_shot_shot_id wfA.shots fsA
    · rw [if_neg hs]

theorem depRepairStep_other (acc : Workflow × FS) (sid : String) (i : Nat) (s : Shot)
    (h : acc.1.shots[i]? = some s) (hne : s.shot_id ≠ sid) :
    ((depRepairStep acc sid).1).shots[i]? = some s := by
  obtain ⟨wfA, fsA⟩ := acc
  simp only [depRepairStep]
  cases hf : wfA.shots.find? (fun t => t.shot_id == sid) with
  | none => exact h
  | some u =>
    dsimp only
    by_cases hs : u.status.stylize ≠ Status.SUCCESS
    · rw [if_pos hs]
      have hp : stylizeSelect (some sid) s = false := by
        simp [stylizeSelect, hne]
      have hskip : ((run_stylize fsA wfA (some sid)).1.shots)[i]? = some s :=
        runShots_skip _ _ wfA.shots fsA i s h hp
      by_cases hh : (run_stylize fsA wfA (some sid)).2.has (stylizedPath sid) = true
      · rw [if_pos hh]
        show ((run_stylize fsA wfA (some sid)).1.shots.map _)[i]? = _
        rw [List.getElem?_map, hskip]
        simp [hne]
      · rw [if_neg hh]
        exact hskip
    · rw [if_neg hs]
      exact h

theorem depRepairStep_fs_mono (acc : Workflow × FS) (sid : String) (p : String)
    (h : acc.2.has p = true) : ((depRepairStep acc sid).2).has p = true := by
  obtain ⟨wfA, fsA⟩ := acc
  simp only [depRepairStep]
  cases hf : wfA.shots.find? (fun t => t.shot_id == sid) with
  | none => exact h
  | some u =>
    dsimp only
    by_cases hs : u.status.stylize ≠ Status.SUCCESS
    · rw [if_pos hs]
      have hmono : ((run_stylize fsA wfA (some sid)).2).has p = true :=
        runShots_fs_mono _ _ run_stylize_shot_fs_mono wfA.shots fsA p h
      by_cases hh : (run_stylize fsA wfA (some sid)).2.has (stylizedPath sid) = true
      · rw [if_pos hh]
        exact hmono
      · rw [if_neg hh]
        exact hmono
    · rw [if_neg hs]
      exact h

theorem depRepairStep_fs_new (acc : Workflow × FS) (sid : String) (p : String) :
    ((depRepairStep acc sid).2).has p = true →
      acc.2.has p = true ∨ p = stylizedPath sid := by
  obtain ⟨wfA, fsA⟩ := acc
  simp only [depRepairStep]
  cases hf : wfA.shots.find? (fun t => t.shot_id == sid) with
  | none => exact fun h => Or.inl h
  | some u =>
    dsimp only
    by_cases hs : u.status.stylize ≠ Status.SUCCESS
    · rw [if_pos hs]
      have hcore : ((run_stylize fsA wfA (some sid)).2).has p = true →
          fsA.has p = true ∨ p = stylizedPath sid := by
        intro h
        rcases runShots_fs_new _ _ (fun s => stylizedPath s.shot_id)
            run_stylize_shot_fs_new wfA.shots fsA p h with h2 | ⟨v, _, hproc, heq⟩
        · exact Or.inl h2
        · have hv : v.shot_id = sid := by
            simpa [stylizeSelect] using hproc
          exact Or.inr (by rw [heq, hv])
      by_cases hh : (run_stylize fsA wfA (some sid)).2.has (stylizedPath sid) = true
      · rw [if_pos hh]
        exact hcore
      · rw [if_neg hh]
        exact hcore
    · rw [if_neg hs]
      exact fun h => Or.inl h

theorem depRepairStep_promotes (acc : Workflow × FS) (sid : String) (sA : Shot)
    (hfind : acc.1.shots.find? (fun t => t.shot_id == sid) = some sA)
    (hns : sA.status.stylize ≠ Status.SUCCESS) :
    ((depRepairStep acc sid).2).has (stylizedPath sid) = true →
    ∀ s ∈ ((depRepairStep acc sid).1).shots, s.shot_id = sid →
      s.status.stylize = Status.SUCCESS ∧
      s.assets.stylized_frame = some (stylizedPath sid) := by
  obtain ⟨wfA, fsA⟩ := acc
  simp only [depRepairStep]
  simp only [hfind]
  rw [if_pos hns]
  by_cases hh : (run_stylize fsA wfA (some sid)).2.has (stylizedPath sid) = true
  · rw [if_pos hh]
    intro _ s hs hsid
    simp only [List.mem_map] at hs
    obtain ⟨t, _, rfl⟩ := hs
    by_cases hts : t.shot_id = sid
    · rw [if_pos hts]
      exact ⟨rfl, rfl⟩
    · rw [if_neg hts] at hsid
      exact absurd hsid hts
  · rw [if_neg hh]
    intro hcontra
    exact absurd hcontra hh

theorem depFold_map_shot_id :
    ∀ (ids : List String) (acc : Workflow × FS),
      ((ids.foldl depRepairStep acc).1).shots.map Shot.shot_id
        = acc.1.shots.map Shot.shot_id := by
  intro ids
  induction ids with
  | nil => intro acc; rfl
  | cons hd tl ih =>
    intro acc
    rw [List.foldl_cons, ih, depRepairStep_map_shot_id]

theorem depFold_other :
    ∀ (ids : List String) (acc : Workflow × FS) (i : Nat) (s : Shot),
      acc.1.shots[i]? = some s → s.shot_id ∉ ids →
      ((ids.foldl depRepairStep acc).1).shots[i]? = some s := by
  intro ids
  induction ids with
  | nil => intro acc i s h _; exact h
  | cons hd tl ih =>
    intro acc i s h hni
    rw [List.foldl_cons]
    refine ih _ i s (depRepairStep_other acc hd i s h ?_) ?_
    · intro he
      exact hni (he ▸ List.mem_cons_self hd tl)
    · intro hm
      exact hni (List.mem_cons_of_mem hd hm)

theorem depFold_fs_new :
    ∀ (ids : List String) (acc : Workflow × FS) (p : String),
      ((ids.foldl depRepairStep acc).2).has p = true →
      acc.2.has p = true ∨ ∃ id2, id2 ∈ ids ∧ p = stylizedPath id2 := by
  intro ids
  induction ids with
  | nil => intro acc p h; exact Or.inl h
  | cons hd tl ih =>
    intro acc p h
    rw [List.foldl_cons] at h
    rcases ih _ p h with h2 | ⟨id2, hm, he⟩
    · rcases depRepairStep_fs_new acc hd p h2 with h3 | h3
      · exact Or.inl h3
      · exact Or.inr ⟨hd, List.mem_cons_self hd tl, h3⟩
    · exact Or.inr ⟨id2, List.mem_cons_of_mem hd hm, he⟩

theorem dependencyRepair_promotes (fs : FS) (wf : Workflow) (target : Option String)
    (hnd : (wf.shots.map Shot.shot_id).Nodup)
    (s0 : Shot) (h0 : s0 ∈ wf.shots) (ht : isTarget target s0 = true)
    (hns : s0.status.stylize ≠ Status.SUCCESS)
    (hdst : ((dependencyRepair fs wf target).2).has (stylizedPath s0.shot_id) = true) :
    ∀ s ∈ ((dependencyRepair fs wf target).1).shots, s.shot_id = s0.shot_id →
      s.status.stylize = Status.SUCCESS ∧
      s.assets.stylized_frame = some (stylizedPath s0.shot_id) := by
  have hmemL : s0.shot_id ∈ (wf.shots.filter (isTarget target)).map Shot.shot_id :=
    List.mem_map_of_mem Shot.shot_id (List.mem_filter.mpr ⟨h0, ht⟩)
  have hndL : ((wf.shots.filter (isTarget target)).map Shot.shot_id).Nodup :=
    List.Nodup.sublist (List.Sublist.map Shot.shot_id (List.filter_sublist wf.shots)) hnd
  obtain ⟨L₁, L₂, hL⟩ := List.append_of_mem hmemL
  rw [hL] at hndL
  rcases List.nodup_append.mp hndL with ⟨hnd1, hnd2, hdisj⟩
  have hn2 : s0.shot_id ∉ L₂ := (List.nodup_cons.mp hnd2).1
  have hn1 : s0.shot_id ∉ L₁ := fun hm => hdisj hm (List.mem_cons_self _ _)
  unfold dependencyRepair at hdst ⊢
  rw [hL, List.foldl_append, List.foldl_cons] at hdst ⊢
  obtain ⟨i, hi⟩ := List.mem_iff_getElem?.mp h0
  have hAi : (List.foldl depRepairStep (wf, fs) L₁).1.shots[i]? = some s0 :=
    depFold_other L₁ (wf, fs) i s0 hi hn1
  have hAnd : ((List.foldl depRepairStep (wf, fs) L₁).1.shots.map Shot.shot_id).Nodup := by
    rw [depFold_map_shot_id]
    exact hnd
  have hfind : (List.foldl depRepairStep (wf, fs) L₁).1.shots.find?
      (fun t => t.shot_id == s0.shot_id) = some s0 :=
    find?_shot_id_of_getElem _ i s0 hAi hAnd
  have hdstB : ((depRepairStep (List.foldl depRepairStep (wf, fs) L₁) s0.shot_id).2).has
      (stylizedPath s0.shot_id) = true := by
    rcases depFold_fs_new L₂ _ _ hdst with h2 | ⟨id2, hm2, he2⟩
    · exact h2
    · have heq : s0.shot_id = id2 := stylizedPath_inj he2
      rw [← heq] at hm2
      exact absurd hm2 hn2
  have hprop := depRepairStep_promotes (List.foldl depRepairStep (wf, fs) L₁) s0.shot_id s0
    hfind hns hdstB
  intro s hs hsid
  obtain ⟨j, hj⟩ := List.mem_iff_getElem?.mp hs
  have hstable := depFold_map_shot_id L₂
    (depRepairStep (List.foldl depRepairStep (wf, fs) L₁) s0.shot_id)
  cases hmap : (depRepairStep (List.foldl depRepairStep (wf, fs) L₁) s0.shot_id).1.shots[j]? with
  | none =>
    have h1 : ((List.foldl depRepairStep
        (depRepairStep (List.foldl depRepairStep (wf, fs) L₁) s0.shot_id) L₂).1.shots.map
        Shot.shot_id)[j]? = some s.shot_id := by
      rw [List.getElem?_map, hj]
      rfl
    rw [hstable, List.getElem?_map, hmap] at h1
    simp at h1
  | some t =>
    have h1 : ((List.foldl depRepairStep
        (depRepairStep (List.foldl depRepairStep (wf, fs) L₁) s0.shot_id) L₂).1.shots.map
        Shot.shot_id)[j]? = some s.shot_id := by
      rw [List.getElem?_map, hj]
      rfl
    rw [hstable, List.getElem?_map, hmap] at h1
    have htid : t.shot_id = s.shot_id := by simpa using h1
    have hkeep : ((List.foldl depRepairStep
        (depRepairStep (List.foldl depRepairStep (wf, fs) L₁) s0.shot_id) L₂).1.shots)[j]?
        = some t :=
      depFold_other L₂ _ j t hmap (by rw [htid, hsid]; exact hn2)
    have hts : t = s := Option.some_inj.mp (hkeep.symm.trans hj)
    rw [← hts]
    exact hprop t (List.mem_iff_getElem?.mpr ⟨j, hmap⟩) (htid.trans hsid)

theorem clearStep_vg_mem (fs : FS) (wf : Workflow) (target : Option String) (s : Shot)
    (h : s ∈ (clearStep NodeType.video_generate fs wf target).1.shots) :
    ∃ s1 ∈ wf.shots, s.shot_id = s1.shot_id ∧ s.status.stylize = s1.status.stylize ∧
      s.assets.stylized_frame = s1.assets.stylized_frame := by
  simp only [clearStep, List.mem_map] at h
  obtain ⟨s1, hs1, rfl⟩ := h
  refine ⟨s1, hs1, ?_⟩
  by_cases hc : isTarget target s1 = true
  · rw [if_pos hc]
    exact ⟨rfl, rfl, rfl⟩
  · rw [if_neg hc]
    exact ⟨rfl, rfl, rfl⟩

/-- C4: when `run_node` is invoked for `video_generate`, each target
shot whose stylize status is not SUCCESS first has stylize run
synchronously for it (the dependency-repair loop), and when that repair
produced the stylized frame, the document state persisted immediately
before the video generator is invoked already shows the shot with
stylize SUCCESS and its stylized-frame asset path recorded — so the
precondition is established before video generation for that shot is
attempted. -/
theorem run_node_video_repairs_stylize_first (vgen : String → Bool) (fs : FS)
    (wf : Workflow) (target : Option String)
    (hnd : (wf.shots.map Shot.shot_id).Nodup)
    (s0 : Shot) (h0 : s0 ∈ wf.shots) (ht : isTarget target s0 = true)
    (hns : s0.status.stylize ≠ Status.SUCCESS)
    (hdst : (run_node vgen fs wf NodeType.video_generate target).fsBeforeGen.has
        (stylizedPath s0.shot_id) = true)
    (s1 : Shot)
    (h1 : s1 ∈ (run_node vgen fs wf NodeType.video_generate target).wfBeforeGen.shots)
    (hid : s1.shot_id = s0.shot_id) :
    s1.status.stylize = Status.SUCCESS ∧
    s1.assets.stylized_frame = some (stylizedPath s0.shot_id) := by
  have hdst2 : ((dependencyRepair fs wf target).2).has (stylizedPath s0.shot_id) = true :=
    clearTargetFiles_sub NodeType.video_generate _ _ _ hdst
  obtain ⟨s2, hs2, hsid2, hsty2, hframe2⟩ :=
    clearStep_vg_mem (dependencyRepair fs wf target).2
      (setStageRunning NodeType.video_generate (dependencyRepair fs wf target).1) target s1 h1
  have hrep := dependencyRepair_promotes fs wf target hnd s0 h0 ht hns hdst2 s2 hs2
    (by rw [← hsid2]; exact hid)
  exact ⟨hsty2.trans hrep.1, hframe2.trans hrep.2⟩

/-- C4 witness: a one-shot job with stylize NOT_STARTED and the first
frame on disk; the state handed to the video generator has the shot
repaired to stylize SUCCESS with its stylized-frame path recorded. -/
theorem run_node_video_repairs_stylize_first_witness :
    shotRepaired.status.stylize = Status.SUCCESS ∧
    shotRepaired.assets.stylized_frame = some (stylizedPath "shot_01") :=
  run_node_video_repairs_stylize_first (fun _ => true) fsFirstFrame
    (baseWf [baseShot "shot_01"]) none (by decide) (baseShot "shot_01") (by decide)
    (by decide) (by decide) (by decide) shotRepaired (by decide) (by decide)

end G3VideoAgent
